import Mathlib

/-! Verification of the MTA-time-opt scripts.

This file shallowly embeds the two computations the specification calls the
core of the repository: the static best-train-per-station selector of
`src/tt2gc.py` and the drive+train total-time ranker of
`src/combine_opt.py`, and proves or refutes the spec's claims about them.

Time representation: the Python code stores times as fractional minutes
since midnight (`to_minutes` returns `h * 60 + m + s / 60`).  Here that
exact value is represented scaled by 60, i.e. as an integer number of
seconds (`60 * (h * 60 + m) + s`), so that every scheduling quantity is an
integer.  All comparisons, differences, groupings and sorts performed by
the pipeline are invariant under this fixed positive scaling; the
user-typed whole-minute target `target_arrival_min` is scaled to
`60 * targetMin` on the same axis.  (The Python floats are modelled as
exact rationals; the scripts' values stay well inside the range where
float arithmetic on them is exact apart from the `s / 60` division, whose
rounding the spec does not discuss.)  `Int` division `/` and `%` in Lean
are Euclidean and agree with Python's floor `//` and `%` for the positive
divisors used here. -/

namespace MNR

/-- Python `int(...)` applied to one colon-separated field: decimal digits
giving a natural number, `none` otherwise.  (Sign handling is in
`parseInt`.) -/
def digitsVal (l : List Char) : Option ℕ :=
  if l = [] then none
  else if l.all Char.isDigit then
    some (l.foldl (fun a c => 10 * a + (c.toNat - '0'.toNat)) 0)
  else none

/-- Python `int(...)` on a string field: an optional sign followed by
decimal digits.  (Python also tolerates surrounding whitespace and inner
underscores; GTFS time fields never use them and no claim depends on
them.) -/
def parseInt (l : List Char) : Option ℤ :=
  match l with
  | '-' :: rest => (digitsVal rest).map (fun n => -(n : ℤ))
  | '+' :: rest => (digitsVal rest).map (fun n => (n : ℤ))
  | _ => (digitsVal l).map (fun n => (n : ℤ))

/-- Python `str.split` with a one-character separator:
`"a:b".split(":") = ["a", "b"]`, `"::".split(":") = ["", "", ""]`,
`"".split(":") = [""]`. -/
def splitCh (sep : Char) : List Char → List (List Char)
  | [] => [[]]
  | c :: cs =>
    match splitCh sep cs with
    | [] => [[]]
    | h :: t => if c = sep then [] :: h :: t else (c :: h) :: t

/-- `to_minutes` from `src/tt2gc.py` lines 24-30: split on ":", unpack
exactly three integer fields `h, m, s` and return `h * 60 + m + s / 60`
minutes — here scaled by 60 to the integer `60 * (h * 60 + m) + s`.  The
Python body catches every exception and returns `None`, so the model is a
total function into `Option`. -/
def to_minutes (t : String) : Option ℤ :=
  match (splitCh ':' t.data).map parseInt with
  | [some h, some m, some s] => some (60 * (h * 60 + m) + s)
  | _ => none

/-- A row of `stops.txt`. -/
structure StopRow where
  stop_id : ℕ
  stop_name : String
deriving DecidableEq

/-- A row of `stop_times.txt` as the script uses it.  The joined table
`st` built at lines 68-69 carries a `stop_name` column that is used as a
group key at line 97, so the model carries the stop name on the stop-time
row. -/
structure StopTimeRow where
  trip_id : ℕ
  stop_id : ℕ
  stop_name : String
  arrival_time : String
  departure_time : String
deriving DecidableEq

/-- A row of `trips.txt`. -/
structure TripRow where
  trip_id : ℕ
  service_id : ℕ
  route_id : ℕ
deriving DecidableEq

/-- A row of `routes.txt` (only the two merged columns). -/
structure RouteRow where
  route_id : ℕ
  route_long_name : String
deriving DecidableEq

/-- A row of `calendar.txt`: a service id, a date range (dates as integers
on an arbitrary day axis) and one active flag per weekday. -/
structure CalendarRow where
  service_id : ℕ
  start_date : ℤ
  end_date : ℤ
  weekday : Fin 7 → Bool

/-- The GTFS tables downloaded at lines 48-53. -/
structure Gtfs where
  stops : List StopRow
  stop_times : List StopTimeRow
  trips : List TripRow
  routes : List RouteRow
  calendar : List CalendarRow

/-- Line 21. -/
def DESTINATION_NAME : String := "Grand Central Terminal"

/-- Case-insensitive substring containment, modelling
`Series.str.contains(pat, case=False)`; the patterns the script uses
contain no regex metacharacters, so `str.contains` is plain substring
search. -/
def strContainsCI (s pat : String) : Bool :=
  decide (pat.data.map Char.toLower <:+: s.data.map Char.toLower)

/-- Lines 59-63: services whose date range covers the target date and
whose flag for the target weekday is set; `.unique()` keeps first
occurrences. -/
def activeServices (g : Gtfs) (targetDate : ℤ) (wd : Fin 7) : List ℕ :=
  ((g.calendar.filter fun c =>
      decide (c.start_date ≤ targetDate) && decide (targetDate ≤ c.end_date) &&
        c.weekday wd).map (·.service_id)).dedup

/-- Line 65: keep only trips of an active service. -/
def tripsActive (g : Gtfs) (targetDate : ℤ) (wd : Fin 7) : List TripRow :=
  g.trips.filter fun t => (activeServices g targetDate wd).contains t.service_id

/-- A row of the joined table `st` (lines 68-69) after the time conversion
of lines 81-82.  `line` is `route_long_name` after the left merge with
`routes` (`none` when the trip's `route_id` has no route row, pandas NaN);
`arrival_min` / `departure_min` are the parsed times in scaled seconds,
`none` on parse failure (NaN). -/
structure StRow where
  trip_id : ℕ
  stop_id : ℕ
  stop_name : String
  line : Option String
  arrival_min : Option ℤ
  departure_min : Option ℤ
deriving DecidableEq

/-- Lines 68-69 and 81-82: inner-join `stop_times` with the active trips
on `trip_id`, left-join `routes` on `route_id`, and convert the time
strings.  A join against several matching rows duplicates the row, as a
pandas merge does. -/
def stTable (g : Gtfs) (targetDate : ℤ) (wd : Fin 7) : List StRow :=
  g.stop_times.flatMap fun s =>
    ((tripsActive g targetDate wd).filter fun t => t.trip_id == s.trip_id).flatMap fun t =>
      match g.routes.filter fun r => r.route_id == t.route_id with
      | [] => [⟨s.trip_id, s.stop_id, s.stop_name, none,
          to_minutes s.arrival_time, to_minutes s.departure_time⟩]
      | rs => rs.map fun r => ⟨s.trip_id, s.stop_id, s.stop_name, some r.route_long_name,
          to_minutes s.arrival_time, to_minutes s.departure_time⟩

/-- Lines 72-75: stop ids whose name contains the destination name,
case-insensitively. -/
def destIds (g : Gtfs) : List ℕ :=
  ((g.stops.filter fun s => strContainsCI s.stop_name DESTINATION_NAME).map (·.stop_id)).dedup

/-- Lines 85-87: destination-arrival events no later than the target
(`targetMin` whole minutes, times in scaled seconds), as
(`trip_id`, `dest_arrival_min`) pairs.  A NaN arrival satisfies no
comparison, so a `none` arrival never qualifies. -/
def destPairs (g : Gtfs) (targetDate : ℤ) (wd : Fin 7) (targetMin : ℤ) : List (ℕ × ℤ) :=
  (stTable g targetDate wd).filterMap fun r =>
    match r.arrival_min with
    | some a =>
        if (destIds g).contains r.stop_id && decide (a ≤ 60 * targetMin) then
          some (r.trip_id, a)
        else none
    | none => none

/-- A row of `merged` (line 90): an `st` row paired with the destination
arrival of the same trip. -/
structure Leg where
  row : StRow
  dest_arrival : ℤ
deriving DecidableEq

/-- Pandas ordering on a nullable column: `none < x` is false, as for NaN. -/
def optLTb : Option ℤ → ℤ → Bool
  | some a, b => decide (a < b)
  | none, _ => false

/-- Lines 90-91: inner-join `st` with the destination events on `trip_id`,
then keep rows whose origin arrival is strictly before the destination
arrival. -/
def mergedLegs (g : Gtfs) (targetDate : ℤ) (wd : Fin 7) (targetMin : ℤ) : List Leg :=
  (((stTable g targetDate wd).flatMap fun r =>
    (destPairs g targetDate wd targetMin).filterMap fun p =>
      if p.1 == r.trip_id then some (⟨r, p.2⟩ : Leg) else none)).filter
    fun l => optLTb l.row.arrival_min l.dest_arrival

/-- Line 92: `travel_time_min = dest_arrival_min - departure_min` (scaled
seconds; NaN — `none` — when the departure failed to parse). -/
def Leg.travel (l : Leg) : Option ℤ :=
  l.row.departure_min.map fun d => l.dest_arrival - d

/-- The groupby key of line 97: (`stop_id`, `stop_name`,
`route_long_name`).  Pandas drops groups whose key contains NaN, so a row
with a missing line has no key. -/
def Leg.keyOf (l : Leg) : Option (ℕ × String × String) :=
  l.row.line.map fun ln => (l.row.stop_id, l.row.stop_name, ln)

/-- Insertion step of a generic insertion sort with a boolean
less-or-equal. -/
def insertBy {α : Type} (le : α → α → Bool) (x : α) : List α → List α
  | [] => [x]
  | y :: ys => if le x y then x :: y :: ys else y :: insertBy le x ys

/-- Generic insertion sort.  `sort_values` uses an unstable quicksort, so
the order among key-ties is unspecified upstream; this sort realizes one
admissible order. -/
def sortBy {α : Type} (le : α → α → Bool) (l : List α) : List α :=
  l.foldr (insertBy le) []

/-- Line 96: sort `merged` by `dest_arrival_min`, descending. -/
def sortDesc (l : List Leg) : List Leg :=
  sortBy (fun a b => decide (b.dest_arrival ≤ a.dest_arrival)) l

/-- One output row of the groupby at lines 95-99.  Pandas
`GroupBy.first` takes, for each column separately, the first non-null
value within the group in the sorted order — so the columns of one output
row can be stitched together from different rows of the group.
`dest_arrival` is never null by construction, hence its group value is
simply the head's. -/
structure BestRow where
  stop_id : ℕ
  stop_name : String
  line : String
  arrival_min : Option ℤ
  departure_min : Option ℤ
  dest_arrival : ℤ
  travel : Option ℤ
deriving DecidableEq

/-- `GroupBy.first` over one non-empty group, given in descending
`dest_arrival_min` order. -/
def selectGroup (k : ℕ × String × String) (rows : List Leg) : Option BestRow :=
  match rows with
  | [] => none
  | h :: t =>
    some ⟨k.1, k.2.1, k.2.2,
      (h :: t).findSome? (fun l => l.row.arrival_min),
      (h :: t).findSome? (fun l => l.row.departure_min),
      h.dest_arrival,
      (h :: t).findSome? Leg.travel⟩

/-- Lines 95-99: sort descending by `dest_arrival_min`, group by
(`stop_id`, `stop_name`, `route_long_name`) and take the per-column first
(non-null) value of each group. -/
def bestRows (legs : List Leg) : List BestRow :=
  ((sortDesc legs).filterMap Leg.keyOf).dedup.filterMap fun k =>
    selectGroup k ((sortDesc legs).filter fun l => decide (l.keyOf = some k))

/-- `round(x, 1)` of an exact minute value given as `t` scaled seconds,
returned in tenths of a minute: the integer nearest to `t / 6`, halves to
even (Python's rounding rule on exact values; line 114). -/
def roundTenths (t : ℤ) : ℤ :=
  if t % 6 < 3 then t / 6
  else if 3 < t % 6 then t / 6 + 1
  else if (t / 6) % 2 = 0 then t / 6 else t / 6 + 1

/-- Python `f"{n:02d}"`: decimal rendering, padded to width two with a
leading zero. -/
def pad2 (n : ℤ) : String :=
  if n < 0 then "-" ++ Nat.repr (-n).toNat
  else if n < 10 then "0" ++ Nat.repr n.toNat
  else Nat.repr n.toNat

/-- `fmt_time` (lines 116-119) on a time of `t` scaled seconds: the source
computes `int(m // 60)` and `int(m % 60)` from the minute value
`m = t / 60`; on the seconds axis those are `t / 3600` and
`(t / 60) % 60` under floor division.  NaN formats as the empty
string. -/
def fmt_time : Option ℤ → String
  | none => ""
  | some t => pad2 (t / 3600) ++ ":" ++ pad2 ((t / 60) % 60)

/-- Final output row (lines 101-122).  `Train_Travel_Min` is kept in
tenths of a minute (`round(x, 1)` of the exact value scales to an integer
count of tenths); `Departure_Min` and `Arrival_Min` stay in scaled
seconds. -/
structure OutRow where
  stop_name : String
  Line : String
  Departure_Min : Option ℤ
  Arrival_Min : ℤ
  Train_Travel_Min : Option ℤ
  Scheduled_Departure : String
  Scheduled_Arrival : String
deriving DecidableEq

/-- Lines 101-122: column selection, renaming, rounding and time
formatting. -/
def projOut (b : BestRow) : OutRow :=
  { stop_name := b.stop_name
    Line := b.line
    Departure_Min := b.departure_min
    Arrival_Min := b.dest_arrival
    Train_Travel_Min := b.travel.map roundTenths
    Scheduled_Departure := fmt_time b.departure_min
    Scheduled_Arrival := fmt_time (some b.dest_arrival) }

/-- Line 126 sort key: ascending `Train_Travel_Min`, missing values last
(pandas `na_position` default). -/
def leTravel : Option ℤ → Option ℤ → Bool
  | some a, some b => decide (a ≤ b)
  | some _, none => true
  | none, none => true
  | none, some _ => false

/-- Lines 95-126: the written table — group and select, project, drop rows
whose station name contains "Grand Central" (case-insensitively, line
125), and sort ascending by travel time. -/
def bestTable (g : Gtfs) (targetDate : ℤ) (wd : Fin 7) (targetMin : ℤ) : List OutRow :=
  sortBy (fun a b => leTravel a.Train_Travel_Min b.Train_Travel_Min)
    (((bestRows (mergedLegs g targetDate wd targetMin)).map projOut).filter
      fun r => !strContainsCI r.stop_name "Grand Central")

/-- The whole run of `src/tt2gc.py` after input parsing: `Except.error`
models the uncaught `ValueError` of line 78 (no stop matches the
destination name), which aborts the script before any output is written;
otherwise the run completes and writes `bestTable` (possibly empty) to the
output file. -/
def tt2gcRun (g : Gtfs) (targetDate : ℤ) (wd : Fin 7) (targetMin : ℤ) :
    Except String (List OutRow) :=
  if destIds g = [] then
    Except.error "Could not find Grand Central Terminal in stops.txt"
  else Except.ok (bestTable g targetDate wd targetMin)

/-- A row of the `stations` table of `src/combine_opt.py` (line 87): the
train CSV columns joined (left) with the station coordinates recovered
from `stops.txt`; a station that matched no stop has NaN coordinates.
`Train_Travel_Min` is a decimal from the CSV, kept as an exact
rational. -/
structure StationRow where
  stop_name : String
  Line : String
  Train_Travel_Min : ℚ
  Scheduled_Departure : String
  Scheduled_Arrival : String
  stop_lat : Option ℚ
  stop_lon : Option ℚ
deriving DecidableEq

/-- Python `round(x, 1)` over exact rationals: round to tenths, halves to
even. -/
def round1 (x : ℚ) : ℚ :=
  ((if 10 * x - ⌊10 * x⌋ = 1 / 2 then
      (if Even ⌊10 * x⌋ then ⌊10 * x⌋ else ⌊10 * x⌋ + 1)
    else round (10 * x)) : ℤ) / 10

/-- One appended result record (lines 103-112). -/
structure ResultRow where
  Station : String
  Line : String
  Drive_Min : ℚ
  Drive_Km : ℚ
  Train_Travel_Min : ℚ
  Scheduled_Departure : String
  Scheduled_Arrival : String
  Total_Travel_Min : ℚ
deriving DecidableEq

/-- Lines 93-114, the per-station loop.  `osrm lat lon` models
`get_osrm_time_distance(origin, (lat, lon))`, whose body catches every
exception (timeout, HTTP error, no route, bad JSON) and returns
`(None, None)` — here `none`.  A row with a missing coordinate is skipped
(`continue`), a failed lookup is skipped (`continue`); every surviving row
appends one record whose total is the unrounded drive time plus the train
time, rounded to one decimal.  The loop raises nothing and keeps no count
of skipped rows. -/
def resultOfRow (osrm : ℚ → ℚ → Option (ℚ × ℚ)) (row : StationRow) :
    Option ResultRow :=
  match row.stop_lat, row.stop_lon with
  | some lat, some lon =>
    match osrm lat lon with
    | some (driveTime, driveDist) =>
      some { Station := row.stop_name
             Line := row.Line
             Drive_Min := round1 driveTime
             Drive_Km := round1 driveDist
             Train_Travel_Min := row.Train_Travel_Min
             Scheduled_Departure := row.Scheduled_Departure
             Scheduled_Arrival := row.Scheduled_Arrival
             Total_Travel_Min := round1 (driveTime + row.Train_Travel_Min) }
    | none => none
  | _, _ => none

/-- The `results` list accumulated by the loop. -/
def results (osrm : ℚ → ℚ → Option (ℚ × ℚ)) (stations : List StationRow) :
    List ResultRow :=
  stations.filterMap (resultOfRow osrm)

/-- Lines 117-126 of `src/combine_opt.py`: `pd.DataFrame([])` built from an
empty record list has no columns, so `sort_values("Total_Travel_Min")`
raises `KeyError` — the script dies before `to_csv` and writes no output
file.  On a non-empty list the rows are sorted ascending by total time and
written. -/
def combineRun (osrm : ℚ → ℚ → Option (ℚ × ℚ)) (stations : List StationRow) :
    Except String (List ResultRow) :=
  match results osrm stations with
  | [] => Except.error "KeyError: Total_Travel_Min"
  | r :: rs =>
      Except.ok (sortBy (fun a b => decide (a.Total_Travel_Min ≤ b.Total_Travel_Min)) (r :: rs))

/-- A station row for which the routing step of `src/combine_opt.py` keeps
no record: a missing coordinate, or a failed OSRM lookup. -/
def lookupFails (osrm : ℚ → ℚ → Option (ℚ × ℚ)) (row : StationRow) : Prop :=
  row.stop_lat = none ∨ row.stop_lon = none ∨
    ∀ lat lon, row.stop_lat = some lat → row.stop_lon = some lon → osrm lat lon = none

/-- Membership is preserved by one insertion step. -/
theorem mem_insertBy {α : Type} {le : α → α → Bool} {x a : α} {l : List α} :
    a ∈ insertBy le x l ↔ a = x ∨ a ∈ l := by
  induction l with
  | nil => simp [insertBy]
  | cons y ys ih =>
    by_cases h : le x y = true
    · simp only [insertBy, if_pos h, List.mem_cons]
    · simp only [insertBy, if_neg h, List.mem_cons, ih]
      tauto

/-- Sorting permutes: membership is unchanged. -/
theorem mem_sortBy {α : Type} {le : α → α → Bool} {a : α} {l : List α} :
    a ∈ sortBy le l ↔ a ∈ l := by
  induction l with
  | nil => simp [sortBy]
  | cons y ys ih =>
    show a ∈ insertBy le y (sortBy le ys) ↔ _
    simp [mem_insertBy, ih, List.mem_cons]

/-- Insertion preserves sortedness for a total, transitive boolean
relation. -/
theorem pairwise_insertBy {α : Type} {le : α → α → Bool}
    (htot : ∀ a b, le a b = false → le b a = true)
    (htrans : ∀ a b c, le a b = true → le b c = true → le a c = true)
    {x : α} {l : List α} (h : l.Pairwise fun a b => le a b = true) :
    (insertBy le x l).Pairwise fun a b => le a b = true := by
  induction l with
  | nil => simp [insertBy]
  | cons y ys ih =>
    rcases List.pairwise_cons.mp h with ⟨hy, hys⟩
    by_cases hxy : le x y = true
    · rw [insertBy, if_pos hxy]
      refine List.pairwise_cons.mpr ⟨?_, h⟩
      intro z hz
      rcases List.mem_cons.mp hz with rfl | hz
      · exact hxy
      · exact htrans x y z hxy (hy z hz)
    · rw [insertBy, if_neg hxy]
      refine List.pairwise_cons.mpr ⟨?_, ih hys⟩
      intro z hz
      rcases mem_insertBy.mp hz with rfl | hz
      · exact htot z y (Bool.not_eq_true _ ▸ hxy)
      · exact hy z hz

/-- The insertion sort sorts, for a total, transitive boolean relation. -/
theorem pairwise_sortBy {α : Type} {le : α → α → Bool}
    (htot : ∀ a b, le a b = false → le b a = true)
    (htrans : ∀ a b c, le a b = true → le b c = true → le a c = true)
    (l : List α) : (sortBy le l).Pairwise fun a b => le a b = true := by
  induction l with
  | nil => simp [sortBy]
  | cons y ys ih => exact pairwise_insertBy htot htrans ih

/-- The head of a non-empty filtered slice of the descending sort bounds
the `dest_arrival` of every list element satisfying the filter. -/
theorem filter_sortDesc_head_max {legs : List Leg} {p : Leg → Bool} {hd : Leg}
    {tl : List Leg} (hfil : (sortDesc legs).filter p = hd :: tl) :
    ∀ x ∈ legs, p x = true → x.dest_arrival ≤ hd.dest_arrival := by
  intro x hx hpx
  have hpair : ((sortDesc legs).filter p).Pairwise
      (fun a b => decide (b.dest_arrival ≤ a.dest_arrival) = true) := by
    refine List.Pairwise.filter p (pairwise_sortBy ?_ ?_ legs)
    · intro a b hab
      simp only [decide_eq_false_iff_not, not_le] at hab
      simp only [decide_eq_true_eq]
      omega
    · intro a b c hab hbc
      simp only [decide_eq_true_eq] at hab hbc ⊢
      omega
  rw [hfil] at hpair
  have hxmem : x ∈ hd :: tl := by
    rw [← hfil]
    exact List.mem_filter.mpr ⟨mem_sortBy.mpr hx, hpx⟩
  rcases List.mem_cons.mp hxmem with rfl | hxtl
  · exact le_refl _
  · simpa using List.rel_of_pairwise_cons hpair hxtl

/-- Every qualifying destination event respects the target bound. -/
theorem destPairs_le {g : Gtfs} {targetDate : ℤ} {wd : Fin 7} {targetMin : ℤ}
    {p : ℕ × ℤ} (h : p ∈ destPairs g targetDate wd targetMin) :
    p.2 ≤ 60 * targetMin := by
  unfold destPairs at h
  rw [List.mem_filterMap] at h
  obtain ⟨r, _, hr⟩ := h
  cases ha : r.arrival_min with
  | none => rw [ha] at hr; cases hr
  | some a =>
    rw [ha] at hr
    have hr' : (if ((destIds g).contains r.stop_id && decide (a ≤ 60 * targetMin)) = true
        then some (r.trip_id, a) else none) = some p := hr
    by_cases hc : ((destIds g).contains r.stop_id && decide (a ≤ 60 * targetMin)) = true
    · rw [if_pos hc] at hr'
      injection hr' with hr'
      simp only [Bool.and_eq_true] at hc
      rw [← hr']
      exact of_decide_eq_true hc.2
    · rw [if_neg hc] at hr'; cases hr'

/-- Every candidate leg of `merged` has a parsed origin arrival strictly
before the destination arrival, and a destination arrival no later than
the target. -/
theorem mergedLegs_spec {g : Gtfs} {targetDate : ℤ} {wd : Fin 7} {targetMin : ℤ}
    {l : Leg} (h : l ∈ mergedLegs g targetDate wd targetMin) :
    ∃ a, l.row.arrival_min = some a ∧ a < l.dest_arrival ∧
      l.dest_arrival ≤ 60 * targetMin := by
  unfold mergedLegs at h
  rw [List.mem_filter] at h
  obtain ⟨hmem, hlt⟩ := h
  cases ha : l.row.arrival_min with
  | none => rw [ha] at hlt; exact absurd hlt (by simp [optLTb])
  | some a =>
    refine ⟨a, rfl, ?_, ?_⟩
    · rw [ha] at hlt
      exact of_decide_eq_true hlt
    · rw [List.mem_flatMap] at hmem
      obtain ⟨r, _, hr⟩ := hmem
      rw [List.mem_filterMap] at hr
      obtain ⟨p, hp, hif⟩ := hr
      by_cases hc : (p.1 == r.trip_id) = true
      · have hif' : (if (p.1 == r.trip_id) = true then some (⟨r, p.2⟩ : Leg) else none)
            = some l := hif
        rw [if_pos hc] at hif'
        injection hif' with hif'
        rw [← hif']
        exact destPairs_le hp
      · have hif' : (if (p.1 == r.trip_id) = true then some (⟨r, p.2⟩ : Leg) else none)
            = some l := hif
        rw [if_neg hc] at hif'; cases hif'

/-- Eliminate membership in the grouped table: a selected row names a
non-empty group of the sorted candidate legs, takes `dest_arrival` (and
the group key) from the group's head, and takes each nullable column from
the group's first non-null value. -/
theorem bestRows_elim {legs : List Leg} {b : BestRow} (h : b ∈ bestRows legs) :
    ∃ hd tl,
      (sortDesc legs).filter
          (fun l => decide (l.keyOf = some (b.stop_id, b.stop_name, b.line)))
        = hd :: tl ∧
      hd ∈ legs ∧ hd.keyOf = some (b.stop_id, b.stop_name, b.line) ∧
      b.dest_arrival = hd.dest_arrival ∧
      b.arrival_min = (hd :: tl).findSome? (fun l => l.row.arrival_min) ∧
      b.departure_min = (hd :: tl).findSome? (fun l => l.row.departure_min) ∧
      b.travel = (hd :: tl).findSome? Leg.travel := by
  unfold bestRows at h
  rw [List.mem_filterMap] at h
  obtain ⟨k, hk, hsel⟩ := h
  obtain ⟨k1, k2, k3⟩ := k
  cases hfil : (sortDesc legs).filter (fun l => decide (l.keyOf = some (k1, k2, k3))) with
  | nil => rw [hfil] at hsel; exact absurd hsel (by simp [selectGroup])
  | cons hd tl =>
    rw [hfil] at hsel
    rw [selectGroup] at hsel
    injection hsel with hsel
    subst hsel
    have hhd : hd ∈ (sortDesc legs).filter
        (fun l => decide (l.keyOf = some (k1, k2, k3))) := by
      rw [hfil]; exact List.mem_cons_self hd tl
    rw [List.mem_filter] at hhd
    exact ⟨hd, tl, hfil, mem_sortBy.mp hhd.1, of_decide_eq_true hhd.2,
      rfl, rfl, rfl, rfl⟩

/-- Pandas `≤` on two nullable values: a missing side imposes no
constraint. -/
def optLEb : Option ℤ → Option ℤ → Bool
  | some a, some b => decide (a ≤ b)
  | _, _ => true

/-- The policy claimed by the spec for the groupby of lines 95-99: the
selected row of each station group departs no earlier than any other
qualifying leg of the same group. -/
def latestDeparturePolicy (g : Gtfs) (targetDate : ℤ) (wd : Fin 7) (targetMin : ℤ) : Prop :=
  ∀ b ∈ bestRows (mergedLegs g targetDate wd targetMin),
    ∀ l ∈ mergedLegs g targetDate wd targetMin,
      l.keyOf = some (b.stop_id, b.stop_name, b.line) →
      optLEb l.row.departure_min b.departure_min = true

/-- The rowwise output bounds claimed by the spec: arrival within the
target, and departure strictly before arrival. -/
def selectorOutputStrict (g : Gtfs) (targetDate : ℤ) (wd : Fin 7) (targetMin : ℤ) : Prop :=
  ∀ r ∈ bestTable g targetDate wd targetMin,
    r.Arrival_Min ≤ 60 * targetMin ∧ optLTb r.Departure_Min r.Arrival_Min = true

/-- The exclusion claimed for candidate legs: every leg of `merged` has
both its origin times parsed. -/
def parseFailuresExcluded (g : Gtfs) (targetDate : ℤ) (wd : Fin 7) (targetMin : ℤ) : Prop :=
  ∀ l ∈ mergedLegs g targetDate wd targetMin,
    (l.row.arrival_min).isSome = true ∧ (l.row.departure_min).isSome = true

/-- A small feed: two Harlem-line trips from Chappaqua to Grand Central.
Trip 101 departs 8:00 and arrives 8:40; trip 102 departs later (8:10) but
also arrives earlier (8:35).  The service runs every day of a date range
containing day 0. -/
def gtfsA : Gtfs :=
  { stops := [⟨1, "Grand Central Terminal"⟩, ⟨2, "Chappaqua"⟩]
    stop_times :=
      [⟨101, 2, "Chappaqua", "8:00:00", "8:00:00"⟩,
       ⟨101, 1, "Grand Central Terminal", "8:40:00", "8:40:00"⟩,
       ⟨102, 2, "Chappaqua", "8:10:00", "8:10:00"⟩,
       ⟨102, 1, "Grand Central Terminal", "8:35:00", "8:35:00"⟩]
    trips := [⟨101, 1, 1⟩, ⟨102, 1, 1⟩]
    routes := [⟨1, "Harlem"⟩]
    calendar := [⟨1, -10, 10, fun _ => true⟩] }

/-- The candidate leg of trip 102 in `gtfsA`: departs 8:10 (= 29400
scaled seconds), destination arrival 8:35 (= 30900). -/
def legB : Leg := ⟨⟨102, 2, "Chappaqua", some "Harlem", some 29400, some 29400⟩, 30900⟩

/-- The row the selector picks for Chappaqua in `gtfsA`: trip 101,
departing 8:00 (28800), arriving 8:40 (31200). -/
def bestRowA : BestRow := ⟨2, "Chappaqua", "Harlem", some 28800, some 28800, 31200, some 2400⟩

/-- The formatted output row for `gtfsA` (travel 40.0 min = 400 tenths). -/
def outRowA : OutRow := ⟨"Chappaqua", "Harlem", some 28800, 31200, some 400, "08:00", "08:40"⟩

/-- C1, counterexample: in `gtfsA` with target 530 minutes (8:50) both
trips qualify, trip 102 departs later than trip 101, yet the selector
keeps trip 101 (the later ARRIVAL, 8:40 over 8:35) — so the
latest-departure-under-deadline policy the claim states is violated. -/
theorem c1_counterexample : ¬ latestDeparturePolicy gtfsA 0 0 530 := by
  unfold latestDeparturePolicy
  decide

/-- C1, amended: the row selected per (station, name, line) group is one
whose destination arrival is maximal among the group's qualifying legs —
a latest-arrival policy, not the claimed latest-departure policy. -/
theorem c1_latest_arrival_selected (g : Gtfs) (targetDate : ℤ) (wd : Fin 7)
    (targetMin : ℤ) (b : BestRow)
    (hb : b ∈ bestRows (mergedLegs g targetDate wd targetMin))
    (l : Leg) (hl : l ∈ mergedLegs g targetDate wd targetMin)
    (hk : l.keyOf = some (b.stop_id, b.stop_name, b.line)) :
    l.dest_arrival ≤ b.dest_arrival ∧
    ∃ sel ∈ mergedLegs g targetDate wd targetMin,
      sel.keyOf = some (b.stop_id, b.stop_name, b.line) ∧
      sel.dest_arrival = b.dest_arrival := by
  obtain ⟨hd, tl, hfil, hhdmem, hhdkey, hdest, _⟩ := bestRows_elim hb
  constructor
  · rw [hdest]
    exact filter_sortDesc_head_max hfil l hl (decide_eq_true hk)
  · exact ⟨hd, hhdmem, hhdkey, hdest.symm⟩

/-- C1, witness: in `gtfsA` the selected Chappaqua row and the qualifying
leg of trip 102 instantiate the amended theorem. -/
theorem c1_witness :
    bestRowA ∈ bestRows (mergedLegs gtfsA 0 0 530) ∧
    legB ∈ mergedLegs gtfsA 0 0 530 ∧
    legB.dest_arrival ≤ bestRowA.dest_arrival :=
  ⟨by decide, by decide,
    (c1_latest_arrival_selected gtfsA 0 0 530 bestRowA (by decide) legB
      (by decide) (by decide)).1⟩

/-- A feed with one trip whose origin event at Chappaqua arrives 8:20 but
departs only at 8:40 — exactly when the trip reaches Grand Central.  The
stop-time sequence is non-decreasing, yet departure = destination
arrival. -/
def gtfsB : Gtfs :=
  { stops := [⟨1, "Grand Central Terminal"⟩, ⟨2, "Chappaqua"⟩]
    stop_times :=
      [⟨301, 2, "Chappaqua", "8:20:00", "8:40:00"⟩,
       ⟨301, 1, "Grand Central Terminal", "8:40:00", "8:40:00"⟩]
    trips := [⟨301, 1, 1⟩]
    routes := [⟨1, "Harlem"⟩]
    calendar := [⟨1, -10, 10, fun _ => true⟩] }

/-- C2, counterexample: `gtfsB` is a valid input (one weekday-active
service), the join of line 91 only compares the origin ARRIVAL with the
destination arrival, so an origin departing at 8:40 for a destination
arrival at 8:40 survives: its output row has scheduled departure equal to
scheduled arrival and travel time 0, refuting
`scheduled_departure < scheduled_arrival` (and `travel_time_min > 0`). -/
theorem c2_counterexample : ¬ selectorOutputStrict gtfsB 0 0 530 := by
  unfold selectorOutputStrict
  decide

/-- C2, amended: every output row's arrival is within the target, and the
selected row's origin ARRIVAL is strictly before its destination arrival
(that is the filter the code applies); the strict departure-before-arrival
bound of the claim does not follow and can fail. -/
theorem c2_amended_bounds (g : Gtfs) (targetDate : ℤ) (wd : Fin 7) (targetMin : ℤ) :
    (∀ r ∈ bestTable g targetDate wd targetMin, r.Arrival_Min ≤ 60 * targetMin) ∧
    (∀ b ∈ bestRows (mergedLegs g targetDate wd targetMin),
      b.dest_arrival ≤ 60 * targetMin ∧
      ∃ a, b.arrival_min = some a ∧ a < b.dest_arrival) := by
  have hrows : ∀ b ∈ bestRows (mergedLegs g targetDate wd targetMin),
      b.dest_arrival ≤ 60 * targetMin ∧
      ∃ a, b.arrival_min = some a ∧ a < b.dest_arrival := by
    intro b hb
    obtain ⟨hd, tl, hfil, hhdmem, _, hdest, harr, _⟩ := bestRows_elim hb
    obtain ⟨a, ha, hlt, hle⟩ := mergedLegs_spec hhdmem
    refine ⟨hdest ▸ hle, a, ?_, hdest ▸ hlt⟩
    rw [harr, List.findSome?_cons, ha]
  refine ⟨?_, hrows⟩
  intro r hr
  unfold bestTable at hr
  rw [mem_sortBy, List.mem_filter] at hr
  obtain ⟨hmap, _⟩ := hr
  rw [List.mem_map] at hmap
  obtain ⟨b, hb, hproj⟩ := hmap
  rw [← hproj]
  exact (hrows b hb).1

/-- C2, witness: the Chappaqua row of `gtfsA` is in the output and its
arrival is within the 8:50 target. -/
theorem c2_witness :
    outRowA ∈ bestTable gtfsA 0 0 530 ∧ outRowA.Arrival_Min ≤ 60 * 530 :=
  ⟨by decide, (c2_amended_bounds gtfsA 0 0 530).1 outRowA (by decide)⟩

/-- C3: no output row's station name matches the destination name.  Line
125 drops every row containing "Grand Central" (case-insensitively), a
superset of the names containing "Grand Central Terminal". -/
theorem c3_destination_excluded (g : Gtfs) (targetDate : ℤ) (wd : Fin 7)
    (targetMin : ℤ) (r : OutRow) (hr : r ∈ bestTable g targetDate wd targetMin) :
    strContainsCI r.stop_name DESTINATION_NAME = false := by
  unfold bestTable at hr
  rw [mem_sortBy, List.mem_filter] at hr
  obtain ⟨_, hgc⟩ := hr
  have hgc' : strContainsCI r.stop_name "Grand Central" = false := by
    simpa using hgc
  by_contra h
  rw [Bool.not_eq_false] at h
  have hsub : ("Grand Central".data.map Char.toLower) <:+:
      (DESTINATION_NAME.data.map Char.toLower) := by decide
  have h1 := of_decide_eq_true h
  have h2 : ("Grand Central".data.map Char.toLower) <:+:
      (r.stop_name.data.map Char.toLower) := hsub.trans h1
  have h3 : strContainsCI r.stop_name "Grand Central" = true := decide_eq_true h2
  rw [h3] at hgc'
  cases hgc'

/-- C3, witness: the Chappaqua row of `gtfsA`. -/
theorem c3_witness :
    outRowA ∈ bestTable gtfsA 0 0 530 ∧
    strContainsCI outRowA.stop_name DESTINATION_NAME = false :=
  ⟨by decide, c3_destination_excluded gtfsA 0 0 530 outRowA (by decide)⟩

/-- `gtfsA` without any stop matching the destination name. -/
def gtfsNoDest : Gtfs :=
  { stops := [⟨2, "Chappaqua"⟩]
    stop_times := gtfsA.stop_times
    trips := gtfsA.trips
    routes := gtfsA.routes
    calendar := gtfsA.calendar }

/-- `gtfsA` whose only service is switched off on every weekday. -/
def gtfsNoSvc : Gtfs :=
  { stops := gtfsA.stops
    stop_times := gtfsA.stop_times
    trips := gtfsA.trips
    routes := gtfsA.routes
    calendar := [⟨1, -10, 10, fun _ => false⟩] }

/-- C4: with no stop matching the destination name the run fails with the
line-78 data error; with a destination present but no service active on
the requested date/weekday the run does not fail and writes an empty
output. -/
theorem c4_error_handling (g : Gtfs) (targetDate : ℤ) (wd : Fin 7) (targetMin : ℤ) :
    (destIds g = [] →
      tt2gcRun g targetDate wd targetMin =
        Except.error "Could not find Grand Central Terminal in stops.txt") ∧
    (destIds g ≠ [] → activeServices g targetDate wd = [] →
      tt2gcRun g targetDate wd targetMin = Except.ok []) := by
  constructor
  · intro h
    unfold tt2gcRun
    rw [if_pos h]
  · intro hne hsvc
    have htr : tripsActive g targetDate wd = [] := by
      unfold tripsActive
      rw [hsvc]
      simp [List.contains]
    have hst : stTable g targetDate wd = [] := by
      unfold stTable
      rw [htr]
      simp
    have hmerged : mergedLegs g targetDate wd targetMin = [] := by
      unfold mergedLegs
      rw [hst]
      simp
    have hbt : bestTable g targetDate wd targetMin = [] := by
      unfold bestTable
      rw [hmerged]
      rfl
    unfold tt2gcRun
    rw [if_neg hne, hbt]

/-- C4, witness: a feed without the destination stop errors; a feed whose
service is inactive on the target weekday completes with an empty
table. -/
theorem c4_witness :
    tt2gcRun gtfsNoDest 0 0 530 =
      Except.error "Could not find Grand Central Terminal in stops.txt" ∧
    tt2gcRun gtfsNoSvc 0 0 530 = Except.ok [] :=
  ⟨(c4_error_handling gtfsNoDest 0 0 530).1 (by decide),
   (c4_error_handling gtfsNoSvc 0 0 530).2 (by decide) (by decide)⟩

/-- A station row with coordinates, 40 train minutes. -/
def stationW : StationRow := ⟨"Chappaqua", "Harlem", 40, "08:00", "08:40", some 41, some (-73)⟩

/-- A station row whose latitude is missing (NaN) after the left merge. -/
def stationNoCoord : StationRow := ⟨"Valhalla", "Harlem", 38, "08:05", "08:43", none, some (-73)⟩

/-- A routing collaborator that always finds a 7-minute, 3-km drive. -/
def osrmW : ℚ → ℚ → Option (ℚ × ℚ) := fun _ _ => some (7, 3)

/-- A routing collaborator that always fails. -/
def osrmFail : ℚ → ℚ → Option (ℚ × ℚ) := fun _ _ => none

/-- The record the loop appends for `stationW` under `osrmW`. -/
def resultW : ResultRow :=
  ⟨"Chappaqua", "Harlem", round1 7, round1 3, 40, "08:00", "08:40", round1 (7 + 40)⟩

/-- A failed row produces no record. -/
theorem resultOfRow_eq_none {osrm : ℚ → ℚ → Option (ℚ × ℚ)} {row : StationRow}
    (h : lookupFails osrm row) : resultOfRow osrm row = none := by
  rcases hl : row.stop_lat with _ | lat
  · simp [resultOfRow, hl]
  · rcases hlo : row.stop_lon with _ | lon
    · simp [resultOfRow, hl, hlo]
    · rcases h with hlat | hlon | hfail
      · rw [hl] at hlat; cases hlat
      · rw [hlo] at hlon; cases hlon
      · simp [resultOfRow, hl, hlo, hfail lat lon hl hlo]

/-- C5: a station whose routing lookup fails (missing coordinate or failed
OSRM call) contributes no row, raises nothing, and leaves the rows of
every other station exactly as they would be without it. -/
theorem c5_failed_rows_dropped (osrm : ℚ → ℚ → Option (ℚ × ℚ))
    (pre post : List StationRow) (bad : StationRow) (h : lookupFails osrm bad) :
    results osrm (pre ++ bad :: post) = results osrm pre ++ results osrm post := by
  unfold results
  rw [List.filterMap_append, List.filterMap_cons_none (resultOfRow_eq_none h)]

/-- C5, witness: dropping a coordinate-less station between two good
stations leaves the two good rows. -/
theorem c5_witness :
    lookupFails osrmW stationNoCoord ∧
    results osrmW ([stationW] ++ stationNoCoord :: [stationW]) =
      results osrmW [stationW] ++ results osrmW [stationW] :=
  ⟨Or.inl rfl,
   c5_failed_rows_dropped osrmW [stationW] [stationW] stationNoCoord (Or.inl rfl)⟩

/-- C6: every surviving row's total is `round1` of the unrounded drive
duration plus its train duration. -/
theorem c6_total_is_drive_plus_train (osrm : ℚ → ℚ → Option (ℚ × ℚ))
    (stations : List StationRow) (r : ResultRow) (hr : r ∈ results osrm stations) :
    ∃ row ∈ stations, ∃ lat lon driveTime driveDist,
      row.stop_lat = some lat ∧ row.stop_lon = some lon ∧
      osrm lat lon = some (driveTime, driveDist) ∧
      r.Train_Travel_Min = row.Train_Travel_Min ∧
      r.Drive_Min = round1 driveTime ∧
      r.Total_Travel_Min = round1 (driveTime + row.Train_Travel_Min) := by
  unfold results at hr
  rw [List.mem_filterMap] at hr
  obtain ⟨row, hrow, hres⟩ := hr
  rcases hl : row.stop_lat with _ | lat
  · simp [resultOfRow, hl] at hres
  · rcases hlo : row.stop_lon with _ | lon
    · simp [resultOfRow, hl, hlo] at hres
    · rcases ho : osrm lat lon with _ | ⟨driveTime, driveDist⟩
      · simp [resultOfRow, hl, hlo, ho] at hres
      · simp only [resultOfRow, hl, hlo, ho, Option.some.injEq] at hres
        subst hres
        exact ⟨row, hrow, lat, lon, driveTime, driveDist, hl, hlo, ho, rfl, rfl, rfl⟩

/-- C6, witness: one station with coordinates and a 7-minute drive. -/
theorem c6_witness :
    resultW ∈ results osrmW [stationW] ∧
    ∃ row ∈ [stationW], ∃ lat lon driveTime driveDist,
      row.stop_lat = some lat ∧ row.stop_lon = some lon ∧
      osrmW lat lon = some (driveTime, driveDist) ∧
      resultW.Train_Travel_Min = row.Train_Travel_Min ∧
      resultW.Drive_Min = round1 driveTime ∧
      resultW.Total_Travel_Min = round1 (driveTime + row.Train_Travel_Min) :=
  ⟨List.mem_singleton.mpr rfl,
   c6_total_is_drive_plus_train osrmW [stationW] resultW (List.mem_singleton.mpr rfl)⟩

/-- C9: when every station's lookup fails the result list is empty, and
the run dies in the ranking step (`KeyError` on the column-less empty
frame) without writing an output file, instead of producing an empty
ranking. -/
theorem c9_empty_results_aborts (osrm : ℚ → ℚ → Option (ℚ × ℚ))
    (stations : List StationRow) (h : ∀ row ∈ stations, lookupFails osrm row) :
    combineRun osrm stations = Except.error "KeyError: Total_Travel_Min" := by
  have hres : results osrm stations = [] := by
    revert h
    induction stations with
    | nil => intro _; rfl
    | cons s ss ih =>
      intro h
      unfold results
      rw [List.filterMap_cons_none (resultOfRow_eq_none (h s (List.mem_cons_self s ss)))]
      exact ih fun row hr => h row (List.mem_cons_of_mem s hr)
  unfold combineRun
  rw [hres]

/-- C9, witness: one station without coordinates plus one whose OSRM
lookup fails. -/
theorem c9_witness :
    combineRun osrmFail [stationNoCoord, stationW] =
      Except.error "KeyError: Total_Travel_Min" :=
  c9_empty_results_aborts osrmFail [stationNoCoord, stationW] (by
    intro row hrow
    rcases List.mem_cons.mp hrow with rfl | hrow
    · exact Or.inl rfl
    · rw [List.mem_singleton.mp hrow]
      exact Or.inr (Or.inr fun lat lon _ _ => rfl))

/-- `splitCh` always yields at least one field. -/
theorem splitCh_ne_nil (sep : Char) (l : List Char) : splitCh sep l ≠ [] := by
  induction l with
  | nil => simp [splitCh]
  | cons c cs ih =>
    cases hs : splitCh sep cs with
    | nil => exact absurd hs ih
    | cons h t =>
      simp only [splitCh, hs]
      by_cases hc : c = sep
      · simp [hc]
      · simp [hc]

/-- A separator-free field splits into itself. -/
theorem splitCh_colonFree {l : List Char} (h : ':' ∉ l) : splitCh ':' l = [l] := by
  induction l with
  | nil => rfl
  | cons c cs ih =>
    have hc : ¬c = ':' := fun he => h (he ▸ List.mem_cons_self c cs)
    have hcs : ':' ∉ cs := fun hm => h (List.mem_cons_of_mem c hm)
    simp only [splitCh, ih hcs]
    simp [hc]

/-- Splitting peels one separator-free field off the front. -/
theorem splitCh_append {a : List Char} (b : List Char) (h : ':' ∉ a) :
    splitCh ':' (a ++ ':' :: b) = a :: splitCh ':' b := by
  induction a with
  | nil =>
    simp only [List.nil_append]
    cases hs : splitCh ':' b with
    | nil => exact absurd hs (splitCh_ne_nil ':' b)
    | cons hd tl => simp [splitCh, hs]
  | cons c cs ih =>
    have hc : ¬c = ':' := fun he => h (he ▸ List.mem_cons_self c cs)
    have hcs : ':' ∉ cs := fun hm => h (List.mem_cons_of_mem c hm)
    rw [List.cons_append]
    show (match splitCh ':' (cs ++ ':' :: b) with
      | [] => [[]]
      | h :: t => if c = ':' then [] :: h :: t else (c :: h) :: t) = _
    rw [ih hcs]
    simp [hc]

/-- `pad2` of a small value parses back to the value. -/
theorem parseInt_pad2 : ∀ n : ℕ, n < 100 → parseInt (pad2 (n : ℤ)).data = some (n : ℤ) := by
  decide

/-- `pad2` of a small value contains no colon. -/
theorem pad2_colonFree : ∀ n : ℕ, n < 100 → ':' ∉ (pad2 (n : ℤ)).data := by
  decide

/-- `to_minutes` on a string of exactly two colon-free fields is `None`. -/
theorem to_minutes_two {t : String} {a b : List Char}
    (hd : t.data = a ++ ':' :: b) (ha : ':' ∉ a) (hb : ':' ∉ b) :
    to_minutes t = none := by
  unfold to_minutes
  rw [hd, splitCh_append _ ha, splitCh_colonFree hb]
  simp only [List.map_cons, List.map_nil]
  cases parseInt a <;> cases parseInt b <;> rfl

/-- `to_minutes` on three colon-free integer fields returns the scaled
`h * 60 + m + s / 60` value. -/
theorem to_minutes_parts {t : String} {a b c : List Char} {h m s : ℤ}
    (hd : t.data = a ++ ':' :: (b ++ ':' :: c))
    (ha : ':' ∉ a) (hb : ':' ∉ b) (hc : ':' ∉ c)
    (hpa : parseInt a = some h) (hpb : parseInt b = some m)
    (hpc : parseInt c = some s) :
    to_minutes t = some (60 * (h * 60 + m) + s) := by
  unfold to_minutes
  rw [hd, splitCh_append _ ha, splitCh_append _ hb, splitCh_colonFree hc]
  simp only [List.map_cons, List.map_nil, hpa, hpb, hpc]

/-- `fmt_time` of a whole-minute value `m` (scaled) renders the raw hour
`m / 60` and minute `m % 60`, each through `pad2`. -/
theorem fmt_time_scaled (m : ℕ) :
    fmt_time (some (60 * (m : ℤ))) =
      pad2 ((m / 60 : ℕ) : ℤ) ++ ":" ++ pad2 ((m % 60 : ℕ) : ℤ) := by
  show pad2 ((60 * (m : ℤ)) / 3600) ++ ":" ++ pad2 (((60 * (m : ℤ)) / 60) % 60) = _
  have h1 : (60 * (m : ℤ)) / 3600 = ((m / 60 : ℕ) : ℤ) := by omega
  have h2 : ((60 * (m : ℤ)) / 60) % 60 = ((m % 60 : ℕ) : ℤ) := by omega
  rw [h1, h2]

/-- C7, counterexample: formatting the minute value 0 gives "00:00", and
parsing it back with `to_minutes` gives `None` — not the original count:
the parser demands three `H:M:S` fields, the formatter emits two. -/
theorem c7_counterexample :
    to_minutes (fmt_time (some (60 * (0 : ℤ)))) = none ∧
    to_minutes (fmt_time (some (60 * (0 : ℤ)))) ≠ some (60 * (0 : ℤ)) := by
  decide

/-- C7, amended: for every same-day whole-minute value the round trip
through `to_minutes` yields `None`; appending a ":00" seconds field first
recovers the exact value. -/
theorem c7_roundtrip (m : ℕ) (hm : m < 1440) :
    to_minutes (fmt_time (some (60 * (m : ℤ)))) = none ∧
    to_minutes (fmt_time (some (60 * (m : ℤ))) ++ ":00") = some (60 * (m : ℤ)) := by
  have hh : m / 60 < 100 := by omega
  have hmm : m % 60 < 100 := by omega
  have hca := pad2_colonFree (m / 60) hh
  have hcb := pad2_colonFree (m % 60) hmm
  have hcolon : (":" : String).data = [':'] := rfl
  have h00 : (":00" : String).data = [':', '0', '0'] := rfl
  rw [fmt_time_scaled]
  constructor
  · refine to_minutes_two ?_ hca hcb
    simp [String.data_append, hcolon]
  · have hd2 : (pad2 ((m / 60 : ℕ) : ℤ) ++ ":" ++ pad2 ((m % 60 : ℕ) : ℤ) ++ ":00").data
        = (pad2 ((m / 60 : ℕ) : ℤ)).data ++ ':' ::
          ((pad2 ((m % 60 : ℕ) : ℤ)).data ++ ':' :: ['0', '0']) := by
      simp [String.data_append, hcolon, h00]
    have hz : ':' ∉ (['0', '0'] : List Char) := by decide
    have hp0 : parseInt ['0', '0'] = some 0 := by decide
    rw [to_minutes_parts hd2 hca hcb hz (parseInt_pad2 (m / 60) hh)
      (parseInt_pad2 (m % 60) hmm) hp0]
    congr 1
    omega

/-- C7, witness: 510 minutes (8:30) formats to "08:30", whose ":00"
extension parses back to 510 minutes. -/
theorem c7_witness :
    (510 : ℕ) < 1440 ∧
    to_minutes (fmt_time (some (60 * ((510 : ℕ) : ℤ))) ++ ":00")
      = some (60 * ((510 : ℕ) : ℤ)) :=
  ⟨by decide, (c7_roundtrip 510 (by decide)).2⟩

/-- C8: for `m ≥ 1440` minutes, `fmt_time` renders the raw hour `m / 60`
(which is 24 or more) and the minute `m % 60` without wrapping modulo a
day. -/
theorem c8_no_wrap (m : ℕ) (h : 1440 ≤ m) :
    fmt_time (some (60 * (m : ℤ))) =
      pad2 ((m / 60 : ℕ) : ℤ) ++ ":" ++ pad2 ((m % 60 : ℕ) : ℤ) ∧
    24 ≤ m / 60 :=
  ⟨fmt_time_scaled m, by omega⟩

/-- C8, witness: 1500 minutes renders "25:00", not the wrapped "01:00". -/
theorem c8_witness :
    1440 ≤ 1500 ∧
    fmt_time (some (60 * ((1500 : ℕ) : ℤ))) =
      pad2 ((1500 / 60 : ℕ) : ℤ) ++ ":" ++ pad2 ((1500 % 60 : ℕ) : ℤ) ∧
    fmt_time (some (60 * ((1500 : ℕ) : ℤ))) = "25:00" ∧
    fmt_time (some (60 * ((1500 : ℕ) : ℤ))) ≠ "01:00" :=
  ⟨by decide, (c8_no_wrap 1500 (by decide)).1, by decide, by decide⟩

/-- The shape `to_minutes` accepts: exactly three colon-separated fields,
each an integer. -/
def wellFormedHMS (t : String) : Bool :=
  match splitCh ':' t.data with
  | [a, b, c] => (parseInt a).isSome && (parseInt b).isSome && (parseInt c).isSome
  | _ => false

/-- C10, amended: `to_minutes` returns `None` (it never raises) on every
string that is not three colon-separated integer fields, and every
candidate leg's origin ARRIVAL parsed successfully — arrival-parse
failures are silently excluded by the comparisons.  (An unparseable
DEPARTURE does not exclude a leg; see the counterexample.) -/
theorem c10_unparsed_rows :
    (∀ t : String, wellFormedHMS t = false → to_minutes t = none) ∧
    (∀ (g : Gtfs) (targetDate : ℤ) (wd : Fin 7) (targetMin : ℤ),
      ∀ l ∈ mergedLegs g targetDate wd targetMin,
        (l.row.arrival_min).isSome = true) := by
  constructor
  · intro t ht
    unfold wellFormedHMS at ht
    unfold to_minutes
    cases hs : splitCh ':' t.data with
    | nil => rfl
    | cons a rest =>
      rw [hs] at ht
      cases rest with
      | nil =>
        simp only [List.map_cons, List.map_nil]
        cases parseInt a <;> rfl
      | cons b rest2 =>
        cases rest2 with
        | nil =>
          simp only [List.map_cons, List.map_nil]
          cases parseInt a <;> cases parseInt b <;> rfl
        | cons c rest3 =>
          cases rest3 with
          | nil =>
            simp only [List.map_cons, List.map_nil]
            cases hpa : parseInt a <;> cases hpb : parseInt b <;> cases hpc : parseInt c <;>
              first
                | rfl
                | simp [hpa, hpb, hpc] at ht
          | cons d rest4 =>
            simp only [List.map_cons]
            cases parseInt a <;> cases parseInt b <;> cases parseInt c <;> rfl
  · intro g targetDate wd targetMin l hl
    obtain ⟨a, ha, _, _⟩ := mergedLegs_spec hl
    rw [ha]; rfl

/-- `gtfsA`'s single-trip variant whose Chappaqua departure time string is
unparseable while its arrival parses fine. -/
def gtfsC10 : Gtfs :=
  { stops := [⟨1, "Grand Central Terminal"⟩, ⟨2, "Chappaqua"⟩]
    stop_times :=
      [⟨201, 2, "Chappaqua", "8:00:00", "oops"⟩,
       ⟨201, 1, "Grand Central Terminal", "8:40:00", "8:40:00"⟩]
    trips := [⟨201, 1, 1⟩]
    routes := [⟨1, "Harlem"⟩]
    calendar := [⟨1, -10, 10, fun _ => true⟩] }

/-- C10, counterexample: in `gtfsC10` the Chappaqua event's DEPARTURE
fails to parse, yet the event still appears among the candidate legs
(line 91 filters on the arrival only), refuting the claim that such
events are excluded. -/
theorem c10_counterexample : ¬ parseFailuresExcluded gtfsC10 0 0 530 := by
  unfold parseFailuresExcluded
  decide

/-- C10, witness: a two-field string is rejected by `to_minutes`, and a
concrete candidate leg has a parsed arrival. -/
theorem c10_witness :
    wellFormedHMS "8:00" = false ∧ to_minutes "8:00" = none ∧
    (legB.row.arrival_min).isSome = true :=
  ⟨by decide, c10_unparsed_rows.1 "8:00" (by decide),
   c10_unparsed_rows.2 gtfsA 0 0 530 legB (by decide)⟩

end MNR
